import Mathlib

/-!
Shallow embedding of the ledgertime transaction intake-and-settlement
pipeline (Go sources: internal/ledger service, internal/db storage wrapper,
internal/api HTTP handlers, internal/models data model), together with
theorems settling the specification claims about it.

Modelling conventions:
* `time.Time` instants are abstract `Nat` values (`Time`).
* The storage engine is a CRUD collaborator: its visible state is the list of
  card rows and transaction rows (`DBState`); a successful `INSERT` appends.
* Impure inputs of the pipeline (`uuid.New()`, `time.Now()`,
  `time.Now().UnixNano()` at settlement, and the standard-library RFC3339
  parser `time.Parse`) are supplied through an `Env` record, so each pipeline
  run is a function of its environment.
* Go errors built with `fmt.Errorf` are modelled as inductive error values
  carrying the data interpolated into the message.
-/

namespace Ledgertime

/-- Decidable equality for `Except`, so closed pipeline runs can be checked
by `decide`. -/
instance {ε α : Type} [DecidableEq ε] [DecidableEq α] : DecidableEq (Except ε α) := fun a b =>
  match a, b with
  | .error e, .error f =>
    if h : e = f then isTrue (congrArg Except.error h)
    else isFalse (fun hh => h (Except.error.inj hh))
  | .ok x, .ok y =>
    if h : x = y then isTrue (congrArg Except.ok h)
    else isFalse (fun hh => h (Except.ok.inj hh))
  | .error _, .ok _ => isFalse (fun hh => Except.noConfusion hh)
  | .ok _, .error _ => isFalse (fun hh => Except.noConfusion hh)

/-- Abstract instant standing for Go `time.Time`. -/
abbrev Time := Nat

/-- models/transaction.go: `TransactionStatusPending = "pending"`. -/
def TransactionStatusPending : String := "pending"

/-- models/transaction.go: `TransactionStatusCompleted = "completed"`. -/
def TransactionStatusCompleted : String := "completed"

/-- models/transaction.go: `TransactionStatusFailed = "failed"`. -/
def TransactionStatusFailed : String := "failed"

/-- models.Card (internal/models): one payment card row. -/
structure Card where
  ID : String
  UserID : String
  CardNumber : String
  CardType : String
  IsActive : Bool
  CreatedAt : Time
deriving Repr, DecidableEq

/-- models.Transaction (internal/models/transaction.go): a ledger
transaction row; `Amount` is int64 minor units, `Status` one of the three
status strings. -/
structure Transaction where
  ID : String
  UserID : String
  CardID : String
  Amount : Int
  MerchantName : String
  Category : String
  Description : String
  Status : String
  Timestamp : Time
  CreatedAt : Time
  UpdatedAt : Time
deriving Repr, DecidableEq

/-- models.CardPayload (internal/models): intake DTO for one card payment. -/
structure CardPayload where
  CardNumber : String
  Amount : Int
  MerchantName : String
  Category : String
  Timestamp : String
deriving Repr, DecidableEq

/-- Visible state of the storage collaborator: the card rows and the
transaction rows currently persisted. -/
structure DBState where
  cards : List Card
  transactions : List Transaction
deriving Repr, DecidableEq

/-- Error of db.GetCardByNumber: the only distinguished failure is
`fmt.Errorf("card not found: %s", cardNumber)` produced on `sql.ErrNoRows`. -/
inductive DBError where
  | cardNotFound (cardNumber : String)
deriving Repr, DecidableEq

/-- db.GetCardByNumber (internal/db/db.go lines 96-113): runs
`SELECT ... FROM cards WHERE card_number = $1 AND is_active = true`;
`QueryRow` yields the first matching row, and `sql.ErrNoRows` becomes the
`card not found` error. -/
def GetCardByNumber (st : DBState) (cardNumber : String) : Except DBError Card :=
  match st.cards.find? (fun c => c.CardNumber == cardNumber && c.IsActive) with
  | some card => .ok card
  | none => .error (.cardNotFound cardNumber)

/-- db.CreateTransaction (internal/db/db.go lines 116-133): `INSERT INTO
transactions ...` with the fields the transaction holds at call time; on
success the row is appended to the table. -/
def CreateTransaction (st : DBState) (tx : Transaction) : DBState :=
  { st with transactions := st.transactions ++ [tx] }

/-- Error of ledger.ValidateTransaction: one constructor per
`fmt.Errorf` site, in source order. -/
inductive VError where
  | amountInvalid (amount : Int)
  | userIDEmpty
  | cardIDEmpty
  | merchantMissing
  | categoryMissing
deriving Repr, DecidableEq

/-- ledger.ValidateTransaction (ledger service lines 86-108): checks, in
order, amount > 0, non-empty UserID, non-empty CardID, non-empty
MerchantName, non-empty Category, returning the error of the first failing check, or nil. -/
def ValidateTransaction (tx : Transaction) : Option VError :=
  if tx.Amount ≤ 0 then some (.amountInvalid tx.Amount)
  else if tx.UserID = "" then some .userIDEmpty
  else if tx.CardID = "" then some .cardIDEmpty
  else if tx.MerchantName = "" then some .merchantMissing
  else if tx.Category = "" then some .categoryMissing
  else none

/-- ledger.ValidateTransaction viewed as a state-passing call: the Go
function receives a pointer to the transaction and performs no assignment
through it, so the run returns the validation result together with the
transaction as the call leaves it. -/
def ValidateTransactionRun (tx : Transaction) : Option VError × Transaction :=
  (ValidateTransaction tx, tx)

/-- Error of ledger.processTransaction: the amount-limit rejection and the
simulated transient network failure. -/
inductive SettleError where
  | amountExceedsLimit
  | networkError
deriving Repr, DecidableEq

/-- ledger.processTransaction (ledger service lines 137-152): after the
simulated latency, rejects any amount > 100000, then fails when the
wall-clock nanosecond count is divisible by 20 (the 5% injector), else
succeeds. `nowNanos` stands for `time.Now().UnixNano()` at the call. -/
def processTransaction (nowNanos : Nat) (tx : Transaction) : Option SettleError :=
  if tx.Amount > 100000 then some .amountExceedsLimit
  else if nowNanos % 20 == 0 then some .networkError
  else none

/-- Impure inputs of one pipeline invocation: the RFC3339 parser
(`time.Parse time.RFC3339`), the fresh identity from `uuid.New().String()`,
the record timestamp `time.Now()`, and the nanosecond clock sampled inside
settlement. -/
structure Env where
  parseTimestamp : String → Option Time
  newId : String
  now : Time
  nowNanos : Nat

/-- Error of ledger.ProcessCardPayload, one constructor per wrapping
`fmt.Errorf` site: `card not found`, `invalid timestamp`,
`transaction validation failed`. -/
inductive ProcessError where
  | cardNotFound (e : DBError)
  | invalidTimestamp (timestamp : String)
  | validationFailed (e : VError)
deriving Repr, DecidableEq

/-- Transaction construction inside ledger.ProcessCardPayload (lines 46-59):
fresh uuid identity, resolved user/card ids, payload amount, merchant and
category verbatim, `fmt.Sprintf("Card payment at %s", ...)` description,
pending status, parsed event timestamp, and `now` for both record
timestamps. -/
def buildTransaction (env : Env) (card : Card) (payload : CardPayload)
    (timestamp : Time) : Transaction :=
  { ID := env.newId
    UserID := card.UserID
    CardID := card.ID
    Amount := payload.Amount
    MerchantName := payload.MerchantName
    Category := payload.Category
    Description := "Card payment at " ++ payload.MerchantName
    Status := TransactionStatusPending
    Timestamp := timestamp
    CreatedAt := env.now
    UpdatedAt := env.now }

/-- ledger.ProcessCardPayload (ledger service lines 28-83): resolve the
card, parse the payload timestamp, build the pending transaction, validate
it, insert it, then run settlement and set the status of the in-memory transaction to failed or completed according to the settlement outcome. The
stored row is whatever `CreateTransaction` inserted; the function returns
the in-memory transaction and never returns an error once the insert
succeeded. -/
def ProcessCardPayload (env : Env) (st : DBState) (payload : CardPayload) :
    Except ProcessError Transaction × DBState :=
  match GetCardByNumber st payload.CardNumber with
  | .error e => (.error (.cardNotFound e), st)
  | .ok card =>
    match env.parseTimestamp payload.Timestamp with
    | none => (.error (.invalidTimestamp payload.Timestamp), st)
    | some timestamp =>
      let transaction := buildTransaction env card payload timestamp
      match ValidateTransaction transaction with
      | some e => (.error (.validationFailed e), st)
      | none =>
        let st' := CreateTransaction st transaction
        match processTransaction env.nowNanos transaction with
        | some _ => (.ok { transaction with Status := TransactionStatusFailed }, st')
        | none => (.ok { transaction with Status := TransactionStatusCompleted }, st')

/-- HTTP response written by the api.Server helpers: `writeJSON` of a
created transaction, or `writeError` of a status and message. -/
inductive HTTPResponse where
  | txCreated (status : Nat) (tx : Transaction)
  | errorResp (status : Nat) (message : String)
deriving Repr, DecidableEq

/-- Status code carried by an HTTP response. -/
def respStatus : HTTPResponse → Nat
  | .txCreated s _ => s
  | .errorResp s _ => s

/-- api.Server.createTransaction (internal/api handler lines 195-211):
a body that fails to decode as CardPayload (`none`) yields 400; any
error from ProcessCardPayload yields 500 "Failed to process transaction";
success yields 201 with the transaction. -/
def createTransaction (env : Env) (st : DBState) (body : Option CardPayload) :
    HTTPResponse × DBState :=
  match body with
  | none => (.errorResp 400 "Invalid request body", st)
  | some payload =>
    match ProcessCardPayload env st payload with
    | (.error _, st') => (.errorResp 500 "Failed to process transaction", st')
    | (.ok tx, st') => (.txCreated 201 tx, st')

/-- Error classes of the validation taxonomy in the specification; the two
empty-reference errors of the source both fall in `referenceMissing`. -/
inductive SpecErrClass where
  | amountInvalid
  | referenceMissing
  | merchantMissing
  | categoryMissing
deriving Repr, DecidableEq

/-- Classification of the source validator errors into the taxonomy of
the specification. -/
def errClass : VError → SpecErrClass
  | .amountInvalid _ => .amountInvalid
  | .userIDEmpty => .referenceMissing
  | .cardIDEmpty => .referenceMissing
  | .merchantMissing => .merchantMissing
  | .categoryMissing => .categoryMissing

/-! Concrete fixtures used by witnesses and counterexamples. -/

/-- Stand-in RFC3339 parser defined on the fixture timestamp string only,
consistent with `time.Parse time.RFC3339` accepting that string. -/
def rfc3339Stub : String → Option Time :=
  fun s => if s = "2024-01-15T10:30:00Z" then some 1705314600 else none

/-- Fixture environment: fresh id "tx-0001", record time 1700000000, and a
nanosecond clock not divisible by 20 (the injector does not fire). -/
def envA : Env :=
  { parseTimestamp := rfc3339Stub
    newId := "tx-0001"
    now := 1700000000
    nowNanos := 7 }

/-- Fixture active card. -/
def activeCard : Card :=
  { ID := "card-1"
    UserID := "user-1"
    CardNumber := "4111-1111-1111-1111"
    CardType := "visa"
    IsActive := true
    CreatedAt := 0 }

/-- Fixture inactive card with the same card number. -/
def inactiveCard : Card :=
  { activeCard with ID := "card-2", IsActive := false }

/-- Store holding the one active card and no transactions. -/
def stActive : DBState := { cards := [activeCard], transactions := [] }

/-- Store holding only the inactive card. -/
def stInactive : DBState := { cards := [inactiveCard], transactions := [] }

/-- Empty store. -/
def stEmpty : DBState := { cards := [], transactions := [] }

/-- Fixture payload within the settlement ceiling. -/
def payloadSmall : CardPayload :=
  { CardNumber := "4111-1111-1111-1111"
    Amount := 2500
    MerchantName := "Coffee Shop"
    Category := "dining"
    Timestamp := "2024-01-15T10:30:00Z" }

/-- Fixture payload over the settlement ceiling. -/
def payloadBig : CardPayload := { payloadSmall with Amount := 1000000 }

/-- Fixture payload with zero amount. -/
def payloadZero : CardPayload := { payloadSmall with Amount := 0 }

/-- The pending row the pipeline stores for `payloadBig` under `envA` and
`stActive`. -/
def storedRowBig : Transaction :=
  buildTransaction envA activeCard payloadBig 1705314600

/-- The pending row the pipeline stores for `payloadSmall` under `envA`
and `stActive`. -/
def storedRowSmall : Transaction :=
  buildTransaction envA activeCard payloadSmall 1705314600

/-- Fixture payload whose timestamp string does not parse. -/
def payloadBadTs : CardPayload := { payloadSmall with Timestamp := "not-a-timestamp" }

/-- Fixture transaction failing the amount rule and the merchant rule at
once. -/
def txBad : Transaction := { storedRowSmall with Amount := -5, MerchantName := "" }

/-! Theorems settling the claims. -/

/-- C1 counterexample: for the over-ceiling payload (amount = 1000000) the
pipeline persists the transaction with status pending and never updates the
stored row; the record visible in storage afterwards has status = pending,
not status = failed — only the returned in-memory transaction carries the
failed status. -/
theorem c1_stored_status_counterexample :
    (ProcessCardPayload envA stActive payloadBig).1
        = .ok { storedRowBig with Status := TransactionStatusFailed }
      ∧ (ProcessCardPayload envA stActive payloadBig).2.transactions = [storedRowBig]
      ∧ storedRowBig.Status = TransactionStatusPending
      ∧ storedRowBig.Status ≠ TransactionStatusFailed := by
  decide

/-- C1 amended: once the pipeline persists the pending transaction and
settlement decides a final status, the stored row is never updated — the
storage afterwards holds exactly the appended row in pending status, while
the transaction returned to the caller carries the terminal status. -/
theorem c1_stored_row_stays_pending (env : Env) (st : DBState) (p : CardPayload)
    (tx : Transaction) (st' : DBState)
    (h : ProcessCardPayload env st p = (.ok tx, st')) :
    st'.transactions
        = st.transactions ++ [{ tx with Status := TransactionStatusPending }]
      ∧ (tx.Status = TransactionStatusCompleted
          ∨ tx.Status = TransactionStatusFailed) := by
  cases hc : GetCardByNumber st p.CardNumber with
  | error e => simp [ProcessCardPayload, hc] at h
  | ok card =>
    cases hp : env.parseTimestamp p.Timestamp with
    | none => simp [ProcessCardPayload, hc, hp] at h
    | some t =>
      cases hv : ValidateTransaction (buildTransaction env card p t) with
      | some ve => simp [ProcessCardPayload, hc, hp, hv] at h
      | none =>
        cases hs : processTransaction env.nowNanos (buildTransaction env card p t) with
        | some se =>
          simp only [ProcessCardPayload, hc, hp, hv, hs, Prod.mk.injEq,
            Except.ok.injEq] at h
          obtain ⟨htx, hst⟩ := h
          subst htx
          subst hst
          exact ⟨by simp [CreateTransaction, buildTransaction], Or.inr rfl⟩
        | none =>
          simp only [ProcessCardPayload, hc, hp, hv, hs, Prod.mk.injEq,
            Except.ok.injEq] at h
          obtain ⟨htx, hst⟩ := h
          subst htx
          subst hst
          exact ⟨by simp [CreateTransaction, buildTransaction], Or.inl rfl⟩

/-- Witness for `c1_stored_row_stays_pending` at the small fixture payload. -/
theorem c1_stored_row_stays_pending_witness :
    ({ stActive with transactions := [storedRowSmall] } : DBState).transactions
        = stActive.transactions
          ++ [{ ({ storedRowSmall with Status := TransactionStatusCompleted } : Transaction)
                with Status := TransactionStatusPending }]
      ∧ (({ storedRowSmall with Status := TransactionStatusCompleted } : Transaction).Status
            = TransactionStatusCompleted
          ∨ ({ storedRowSmall with Status := TransactionStatusCompleted } : Transaction).Status
            = TransactionStatusFailed) :=
  c1_stored_row_stays_pending envA stActive payloadSmall
    { storedRowSmall with Status := TransactionStatusCompleted }
    { stActive with transactions := [storedRowSmall] } (by decide)

/-- C2: for every payload whose card resolves, whose timestamp parses, and
whose fields validate (amount positive, non-empty merchant, category and
resolved references), the pipeline returns a transaction whose status is
completed or failed and never pending. -/
theorem c2_terminal_status (env : Env) (st : DBState) (p : CardPayload)
    (card : Card) (t : Time)
    (hcard : GetCardByNumber st p.CardNumber = .ok card)
    (ht : env.parseTimestamp p.Timestamp = some t)
    (hamt : 0 < p.Amount)
    (huser : card.UserID ≠ "") (hcid : card.ID ≠ "")
    (hm : p.MerchantName ≠ "") (hcat : p.Category ≠ "") :
    ∃ tx st', ProcessCardPayload env st p = (.ok tx, st')
      ∧ (tx.Status = TransactionStatusCompleted ∨ tx.Status = TransactionStatusFailed)
      ∧ tx.Status ≠ TransactionStatusPending := by
  have hval : ValidateTransaction (buildTransaction env card p t) = none := by
    have hn : ¬ p.Amount ≤ 0 := by omega
    simp [ValidateTransaction, buildTransaction, hn, huser, hcid, hm, hcat]
  cases hs : processTransaction env.nowNanos (buildTransaction env card p t) with
  | some se =>
    refine ⟨{ buildTransaction env card p t with Status := TransactionStatusFailed },
      CreateTransaction st (buildTransaction env card p t), ?_, Or.inr rfl, ?_⟩
    · simp [ProcessCardPayload, hcard, ht, hval, hs]
    · exact (by decide : TransactionStatusFailed ≠ TransactionStatusPending)
  | none =>
    refine ⟨{ buildTransaction env card p t with Status := TransactionStatusCompleted },
      CreateTransaction st (buildTransaction env card p t), ?_, Or.inl rfl, ?_⟩
    · simp [ProcessCardPayload, hcard, ht, hval, hs]
    · exact (by decide : TransactionStatusCompleted ≠ TransactionStatusPending)

/-- Witness for `c2_terminal_status` at the small fixture payload. -/
theorem c2_terminal_status_witness :
    ∃ tx st', ProcessCardPayload envA stActive payloadSmall = (.ok tx, st')
      ∧ (tx.Status = TransactionStatusCompleted ∨ tx.Status = TransactionStatusFailed)
      ∧ tx.Status ≠ TransactionStatusPending :=
  c2_terminal_status envA stActive payloadSmall activeCard 1705314600
    (by decide) (by decide) (by decide) (by decide) (by decide) (by decide) (by decide)

/-- C3: every pipeline error — unknown card, unparseable timestamp, or
validation failure — is returned as a typed error before any write, leaving
storage unchanged; in particular a payload with amount ≤ 0 that resolves
and parses fails with the amount-invalid validation error and writes
nothing. -/
theorem c3_no_write_on_error (env : Env) (st : DBState) (p : CardPayload) :
    (∀ e, (ProcessCardPayload env st p).1 = .error e
        → (ProcessCardPayload env st p).2 = st)
      ∧ (∀ e, GetCardByNumber st p.CardNumber = .error e
          → ProcessCardPayload env st p = (.error (.cardNotFound e), st))
      ∧ (∀ card, GetCardByNumber st p.CardNumber = .ok card
          → env.parseTimestamp p.Timestamp = none
          → ProcessCardPayload env st p
              = (.error (.invalidTimestamp p.Timestamp), st))
      ∧ (∀ card t ve, GetCardByNumber st p.CardNumber = .ok card
          → env.parseTimestamp p.Timestamp = some t
          → ValidateTransaction (buildTransaction env card p t) = some ve
          → ProcessCardPayload env st p = (.error (.validationFailed ve), st))
      ∧ (∀ card t, GetCardByNumber st p.CardNumber = .ok card
          → env.parseTimestamp p.Timestamp = some t
          → p.Amount ≤ 0
          → ProcessCardPayload env st p
              = (.error (.validationFailed (.amountInvalid p.Amount)), st)) := by
  refine ⟨?_, ?_, ?_, ?_, ?_⟩
  · intro e h
    cases hc : GetCardByNumber st p.CardNumber with
    | error e' => simp [ProcessCardPayload, hc]
    | ok card =>
      cases hp : env.parseTimestamp p.Timestamp with
      | none => simp [ProcessCardPayload, hc, hp]
      | some t =>
        cases hv : ValidateTransaction (buildTransaction env card p t) with
        | some ve => simp [ProcessCardPayload, hc, hp, hv]
        | none =>
          cases hs : processTransaction env.nowNanos (buildTransaction env card p t) with
          | some se => simp [ProcessCardPayload, hc, hp, hv, hs] at h
          | none => simp [ProcessCardPayload, hc, hp, hv, hs] at h
  · intro e hc
    simp [ProcessCardPayload, hc]
  · intro card hc hp
    simp [ProcessCardPayload, hc, hp]
  · intro card t ve hc hp hv
    simp [ProcessCardPayload, hc, hp, hv]
  · intro card t hc hp hle
    have hv : ValidateTransaction (buildTransaction env card p t)
        = some (.amountInvalid p.Amount) := by
      simp [ValidateTransaction, buildTransaction, hle]
    simp [ProcessCardPayload, hc, hp, hv]

/-- Witness for `c3_no_write_on_error` at the zero-amount fixture payload. -/
theorem c3_no_write_on_error_witness :
    ProcessCardPayload envA stActive payloadZero
      = (.error (.validationFailed (.amountInvalid 0)), stActive) :=
  (c3_no_write_on_error envA stActive payloadZero).2.2.2.2 activeCard 1705314600
    (by decide) (by decide) (by decide)

/-- C4 counterexample: a store holding a card whose number matches but whose
active flag is false produces exactly the same `card not found` error as the
empty store — resolution does not fail with a distinct Inactive error. -/
theorem c4_inactive_error_counterexample :
    GetCardByNumber stInactive "4111-1111-1111-1111"
        = .error (.cardNotFound "4111-1111-1111-1111")
      ∧ GetCardByNumber stEmpty "4111-1111-1111-1111"
        = .error (.cardNotFound "4111-1111-1111-1111")
      ∧ stInactive.cards = [inactiveCard]
      ∧ inactiveCard.CardNumber = "4111-1111-1111-1111"
      ∧ inactiveCard.IsActive = false := by
  decide

/-- C4 amended: resolution fails with the single NotFound-style error
`card not found` both when no card matches the number and when every
active flag of every matching card is false; no distinct Inactive error exists. -/
theorem c4_resolution_not_found (st : DBState) (n : String)
    (h : ∀ c ∈ st.cards, c.CardNumber = n → c.IsActive = false) :
    GetCardByNumber st n = .error (.cardNotFound n) := by
  have hf : st.cards.find? (fun c => c.CardNumber == n && c.IsActive) = none := by
    rw [List.find?_eq_none]
    intro c hm
    simp only [Bool.and_eq_true, beq_iff_eq, not_and]
    intro hn
    simp [h c hm hn]
  simp [GetCardByNumber, hf]

/-- Witness for `c4_resolution_not_found` at the inactive-card store. -/
theorem c4_resolution_not_found_witness :
    GetCardByNumber stInactive "4111-1111-1111-1111"
      = .error (.cardNotFound "4111-1111-1111-1111") :=
  c4_resolution_not_found stInactive "4111-1111-1111-1111" (by decide)

/-- C5: for a payload that resolves and validates and whose amount exceeds
the 100000 ceiling, settlement rejects with the amount-exceeds-limit error,
and the pipeline still returns the transaction successfully with status
failed — the risk rejection never surfaces as a request-level error. -/
theorem c5_over_ceiling_failed (env : Env) (st : DBState) (p : CardPayload)
    (card : Card) (t : Time)
    (hcard : GetCardByNumber st p.CardNumber = .ok card)
    (ht : env.parseTimestamp p.Timestamp = some t)
    (huser : card.UserID ≠ "") (hcid : card.ID ≠ "")
    (hm : p.MerchantName ≠ "") (hcat : p.Category ≠ "")
    (hbig : 100000 < p.Amount) :
    processTransaction env.nowNanos (buildTransaction env card p t)
        = some .amountExceedsLimit
      ∧ ProcessCardPayload env st p
          = (.ok { buildTransaction env card p t with Status := TransactionStatusFailed },
             CreateTransaction st (buildTransaction env card p t)) := by
  have hn : ¬ p.Amount ≤ 0 := by omega
  have hs : processTransaction env.nowNanos (buildTransaction env card p t)
      = some .amountExceedsLimit := by
    simp [processTransaction, buildTransaction, hbig]
  have hval : ValidateTransaction (buildTransaction env card p t) = none := by
    simp [ValidateTransaction, buildTransaction, hn, huser, hcid, hm, hcat]
  exact ⟨hs, by simp [ProcessCardPayload, hcard, ht, hval, hs]⟩

/-- Witness for `c5_over_ceiling_failed` at the over-ceiling fixture
payload. -/
theorem c5_over_ceiling_failed_witness :
    processTransaction envA.nowNanos (buildTransaction envA activeCard payloadBig 1705314600)
        = some .amountExceedsLimit
      ∧ ProcessCardPayload envA stActive payloadBig
          = (.ok { buildTransaction envA activeCard payloadBig 1705314600
                    with Status := TransactionStatusFailed },
             CreateTransaction stActive (buildTransaction envA activeCard payloadBig 1705314600)) :=
  c5_over_ceiling_failed envA stActive payloadBig activeCard 1705314600
    (by decide) (by decide) (by decide) (by decide) (by decide) (by decide) (by decide)

/-- C6 counterexample: a decodable request whose payload fails validation
(amount = 0) is answered with status 500, not a 4xx status — the handler
maps every pipeline error, validation and not-found included, to 500. -/
theorem c6_handler_status_counterexample :
    (ProcessCardPayload envA stActive payloadZero).1
        = .error (.validationFailed (.amountInvalid 0))
      ∧ createTransaction envA stActive (some payloadZero)
        = (.errorResp 500 "Failed to process transaction", stActive)
      ∧ ¬ (400 ≤ respStatus (createTransaction envA stActive (some payloadZero)).1
            ∧ respStatus (createTransaction envA stActive (some payloadZero)).1 < 500) := by
  decide

/-- C6 amended: the handler answers 400 only for a body that fails to
decode, 201 with the transaction on pipeline success, and 500 for every
pipeline error alike — validation and not-found errors included, not only
settlement or storage errors. -/
theorem c6_handler_statuses (env : Env) (st : DBState) (body : Option CardPayload) :
    (body = none
        → createTransaction env st body = (.errorResp 400 "Invalid request body", st))
      ∧ (∀ p tx st', body = some p
          → ProcessCardPayload env st p = (.ok tx, st')
          → createTransaction env st body = (.txCreated 201 tx, st'))
      ∧ (∀ p e st', body = some p
          → ProcessCardPayload env st p = (.error e, st')
          → createTransaction env st body
              = (.errorResp 500 "Failed to process transaction", st')) := by
  refine ⟨?_, ?_, ?_⟩
  · rintro rfl; rfl
  · rintro p tx st' rfl h; simp [createTransaction, h]
  · rintro p e st' rfl h; simp [createTransaction, h]

/-- Witness for `c6_handler_statuses` on the small fixture payload. -/
theorem c6_handler_statuses_witness :
    createTransaction envA stActive (some payloadSmall)
      = (.txCreated 201 { storedRowSmall with Status := TransactionStatusCompleted },
         { stActive with transactions := [storedRowSmall] }) :=
  (c6_handler_statuses envA stActive (some payloadSmall)).2.1 payloadSmall
    { storedRowSmall with Status := TransactionStatusCompleted }
    { stActive with transactions := [storedRowSmall] } rfl (by decide)

/-- C7: once the card resolves, the pipeline fails with the invalid-timestamp
error exactly when the payload timestamp does not parse, and when it does
parse the built transaction carries the fresh identity, pending status,
description "Card payment at {merchantName}", the current time as both
record timestamps, the parsed event timestamp, the resolved references, and
the payload amount. -/
theorem c7_builder_fields (env : Env) (st : DBState) (p : CardPayload) (card : Card)
    (hcard : GetCardByNumber st p.CardNumber = .ok card) :
    (env.parseTimestamp p.Timestamp = none
        → ProcessCardPayload env st p = (.error (.invalidTimestamp p.Timestamp), st))
      ∧ (∀ t, env.parseTimestamp p.Timestamp = some t
          → (buildTransaction env card p t).ID = env.newId
            ∧ (buildTransaction env card p t).Status = TransactionStatusPending
            ∧ (buildTransaction env card p t).Description
                = "Card payment at " ++ p.MerchantName
            ∧ (buildTransaction env card p t).CreatedAt = env.now
            ∧ (buildTransaction env card p t).UpdatedAt = env.now
            ∧ (buildTransaction env card p t).Timestamp = t
            ∧ (buildTransaction env card p t).UserID = card.UserID
            ∧ (buildTransaction env card p t).CardID = card.ID
            ∧ (buildTransaction env card p t).Amount = p.Amount)
      ∧ (∀ t, env.parseTimestamp p.Timestamp = some t
          → (ProcessCardPayload env st p).1 ≠ .error (.invalidTimestamp p.Timestamp)) := by
  refine ⟨?_, ?_, ?_⟩
  · intro hp
    simp [ProcessCardPayload, hcard, hp]
  · intro t _
    exact ⟨rfl, rfl, rfl, rfl, rfl, rfl, rfl, rfl, rfl⟩
  · intro t hp
    cases hv : ValidateTransaction (buildTransaction env card p t) with
    | some ve => simp [ProcessCardPayload, hcard, hp, hv]
    | none =>
      cases hs : processTransaction env.nowNanos (buildTransaction env card p t) with
      | some se => simp [ProcessCardPayload, hcard, hp, hv, hs]
      | none => simp [ProcessCardPayload, hcard, hp, hv, hs]

/-- Witness for `c7_builder_fields`: the unparseable fixture timestamp
aborts the pipeline, and the parsed fixture produces the documented
fields. -/
theorem c7_builder_fields_witness :
    ProcessCardPayload envA stActive payloadBadTs
        = (.error (.invalidTimestamp payloadBadTs.Timestamp), stActive)
      ∧ storedRowSmall.ID = envA.newId
      ∧ storedRowSmall.Status = TransactionStatusPending
      ∧ storedRowSmall.Description = "Card payment at " ++ payloadSmall.MerchantName :=
  ⟨(c7_builder_fields envA stActive payloadBadTs activeCard (by decide)).1 (by decide),
   ((c7_builder_fields envA stActive payloadSmall activeCard (by decide)).2.1
      1705314600 (by decide)).1,
   ((c7_builder_fields envA stActive payloadSmall activeCard (by decide)).2.1
      1705314600 (by decide)).2.1,
   ((c7_builder_fields envA stActive payloadSmall activeCard (by decide)).2.1
      1705314600 (by decide)).2.2.1⟩

/-- C8: the validator applies its rules in the fixed source order — amount
positive, then the two resolved references, then merchant, then category —
and reports exactly the first failing rule, the two empty-reference errors
both classifying as ReferenceMissing in the specification taxonomy. -/
theorem c8_validator_order (tx : Transaction) :
    (tx.Amount ≤ 0 → ValidateTransaction tx = some (.amountInvalid tx.Amount))
      ∧ (0 < tx.Amount → (tx.UserID = "" ∨ tx.CardID = "")
          → ∃ e, ValidateTransaction tx = some e ∧ errClass e = .referenceMissing)
      ∧ (0 < tx.Amount → tx.UserID ≠ "" → tx.CardID ≠ "" → tx.MerchantName = ""
          → ValidateTransaction tx = some .merchantMissing)
      ∧ (0 < tx.Amount → tx.UserID ≠ "" → tx.CardID ≠ "" → tx.MerchantName ≠ ""
          → tx.Category = "" → ValidateTransaction tx = some .categoryMissing)
      ∧ (0 < tx.Amount → tx.UserID ≠ "" → tx.CardID ≠ "" → tx.MerchantName ≠ ""
          → tx.Category ≠ "" → ValidateTransaction tx = none) := by
  refine ⟨?_, ?_, ?_, ?_, ?_⟩
  · intro h
    simp [ValidateTransaction, h]
  · intro h href
    have hn : ¬ tx.Amount ≤ 0 := by omega
    rcases eq_or_ne tx.UserID "" with hu | hu
    · exact ⟨.userIDEmpty, by simp [ValidateTransaction, hn, hu], rfl⟩
    · rcases href with h1 | h2
      · exact absurd h1 hu
      · exact ⟨.cardIDEmpty, by simp [ValidateTransaction, hn, hu, h2], rfl⟩
  · intro h hu hc hm
    have hn : ¬ tx.Amount ≤ 0 := by omega
    simp [ValidateTransaction, hn, hu, hc, hm]
  · intro h hu hc hm hcat
    have hn : ¬ tx.Amount ≤ 0 := by omega
    simp [ValidateTransaction, hn, hu, hc, hm, hcat]
  · intro h hu hc hm hcat
    have hn : ¬ tx.Amount ≤ 0 := by omega
    simp [ValidateTransaction, hn, hu, hc, hm, hcat]

/-- Witness for `c8_validator_order`: a transaction violating both the
amount rule and the merchant rule reports only the amount error. -/
theorem c8_validator_order_witness :
    ValidateTransaction txBad = some (.amountInvalid (-5)) :=
  (c8_validator_order txBad).1 (by decide)

/-- C9: the validator is deterministic and side-effect free — one run
leaves the transaction exactly as it was, and a second run on the
transaction the first run leaves behind returns the same result. -/
theorem c9_validator_pure (tx : Transaction) :
    (ValidateTransactionRun tx).2 = tx
      ∧ (ValidateTransactionRun ((ValidateTransactionRun tx).2)).1
          = (ValidateTransactionRun tx).1 :=
  ⟨rfl, rfl⟩

/-- C10: every card resolution returns has its active flag set, and every
transaction the pipeline returns was built against a stored card whose
active flag is set. -/
theorem c10_resolution_active (st : DBState) (n : String) (card : Card)
    (env : Env) (p : CardPayload) (tx : Transaction) (st' : DBState) :
    (GetCardByNumber st n = .ok card → card.IsActive = true)
      ∧ (ProcessCardPayload env st p = (.ok tx, st')
          → ∃ c, c ∈ st.cards ∧ c.IsActive = true
              ∧ c.ID = tx.CardID ∧ c.UserID = tx.UserID) := by
  have key : ∀ (m : String) (c : Card), GetCardByNumber st m = .ok c
      → c ∈ st.cards ∧ c.IsActive = true := by
    intro m c h
    unfold GetCardByNumber at h
    cases hf : st.cards.find? (fun x => x.CardNumber == m && x.IsActive) with
    | none => rw [hf] at h; cases h
    | some c' =>
      rw [hf] at h
      obtain rfl : c' = c := Except.ok.inj h
      have hp := List.find?_some hf
      have hmem := List.mem_of_find?_eq_some hf
      simp only [Bool.and_eq_true, beq_iff_eq] at hp
      exact ⟨hmem, hp.2⟩
  constructor
  · intro h
    exact (key n card h).2
  · intro h
    cases hc : GetCardByNumber st p.CardNumber with
    | error e => simp [ProcessCardPayload, hc] at h
    | ok c =>
      cases hp : env.parseTimestamp p.Timestamp with
      | none => simp [ProcessCardPayload, hc, hp] at h
      | some t =>
        cases hv : ValidateTransaction (buildTransaction env c p t) with
        | some ve => simp [ProcessCardPayload, hc, hp, hv] at h
        | none =>
          have hcmem := key p.CardNumber c hc
          cases hs : processTransaction env.nowNanos (buildTransaction env c p t) with
          | some se =>
            simp only [ProcessCardPayload, hc, hp, hv, hs, Prod.mk.injEq,
              Except.ok.injEq] at h
            obtain ⟨htx, _⟩ := h
            subst htx
            exact ⟨c, hcmem.1, hcmem.2, rfl, rfl⟩
          | none =>
            simp only [ProcessCardPayload, hc, hp, hv, hs, Prod.mk.injEq,
              Except.ok.injEq] at h
            obtain ⟨htx, _⟩ := h
            subst htx
            exact ⟨c, hcmem.1, hcmem.2, rfl, rfl⟩

/-- Witness for `c10_resolution_active` on the active-card store. -/
theorem c10_resolution_active_witness :
    activeCard.IsActive = true
      ∧ ∃ c, c ∈ stActive.cards ∧ c.IsActive = true
          ∧ c.ID = ({ storedRowSmall with Status := TransactionStatusCompleted } :
              Transaction).CardID
          ∧ c.UserID = ({ storedRowSmall with Status := TransactionStatusCompleted } :
              Transaction).UserID :=
  ⟨(c10_resolution_active stActive "4111-1111-1111-1111" activeCard envA payloadSmall
      { storedRowSmall with Status := TransactionStatusCompleted }
      { stActive with transactions := [storedRowSmall] }).1 (by decide),
   (c10_resolution_active stActive "4111-1111-1111-1111" activeCard envA payloadSmall
      { storedRowSmall with Status := TransactionStatusCompleted }
      { stActive with transactions := [storedRowSmall] }).2 (by decide)⟩

end Ledgertime
